import Mathlib

/-
Verification development for the tpuff metrics exporter core.

The definitions below are a shallow embedding of the exporter subsystem:
  * the static region list (src/utils/regions.ts),
  * the region fan-out fetcher (src/utils/metadata-fetcher.ts, recall-enabled
    version),
  * the Prometheus exposition encoder (src/utils/metrics.ts),
  * the refresh cycle and its two caches (src/commands/export.ts).

Modelling conventions:
  * Asynchronous external calls are an explicit environment `ClientEnv` of
    fallible functions returning `Except String`; a thrown JS exception is the
    `.error` case carrying the error message.
  * JS `Date` values are epoch milliseconds (`Int`); one cycle is modelled at a
    single time instant `now`, so the cycle's scrape duration is 0 and every
    `Date.now()` / `new Date()` inside a cycle is `now`.
  * `Date.prototype.toISOString` is abstracted as an injective textual
    rendering of the epoch-millisecond timestamp.
  * JS numbers carried as metric values are modelled as `Rat`, serialized by an
    injective rendering `ratText`.
  * The JS `Map` backing the recall cache is an association list with
    insert-or-overwrite semantics (`mapSet`) and key lookup (`mapGet`).
-/

set_option autoImplicit false

/-- Static list of all Turbopuffer regions (TURBOPUFFER_REGIONS in
src/utils/regions.ts), in source order: 7 GCP regions then 7 AWS regions. -/
def TURBOPUFFER_REGIONS : List String :=
  [ "gcp-us-central1"
  , "gcp-us-west1"
  , "gcp-us-east4"
  , "gcp-northamerica-northeast2"
  , "gcp-europe-west3"
  , "gcp-asia-southeast1"
  , "gcp-asia-northeast3"
  , "aws-ap-southeast-2"
  , "aws-eu-central-1"
  , "aws-eu-west-1"
  , "aws-us-east-1"
  , "aws-us-east-2"
  , "aws-us-west-2"
  , "aws-ap-south-1" ]

/-- Index status union from the NamespaceMetadata interface. -/
inductive IndexStatus where
  | upToDate
  | updating
deriving DecidableEq

/-- Text of an index status value as it appears in the API payload and labels. -/
def IndexStatus.text : IndexStatus → String
  | .upToDate => "up-to-date"
  | .updating => "updating"

/-- The index sub-object of NamespaceMetadata: status plus optional
unindexed_bytes. -/
structure IndexInfo where
  status : IndexStatus
  unindexed_bytes : Option Nat
deriving DecidableEq

/-- CMEK encryption descriptor. -/
structure CmekInfo where
  key_name : String
deriving DecidableEq

/-- Optional encryption descriptor of NamespaceMetadata. -/
structure EncryptionInfo where
  sse : Option Bool
  cmek : Option CmekInfo
deriving DecidableEq

/-- NamespaceMetadata (metadata-fetcher.ts). The `schema` payload is carried by
the interface but never consumed by the exporter pipeline, so it is not
modelled. -/
structure NamespaceMetadata where
  approx_row_count : Nat
  approx_logical_bytes : Nat
  index : IndexInfo
  encryption : Option EncryptionInfo
  updated_at : String
  created_at : String
deriving DecidableEq

/-- RecallData (metadata-fetcher.ts): the recall triple. -/
structure RecallData where
  avg_recall : Rat
  avg_ann_count : Rat
  avg_exhaustive_count : Rat
deriving DecidableEq

/-- A namespace reference as returned by the listing call (`{ id }`). -/
structure NamespaceRef where
  id : String
deriving DecidableEq

/-- NamespaceWithMetadata (metadata-fetcher.ts). The TS field `namespace` is
named `ns` here because `namespace` is a Lean keyword. -/
structure NamespaceWithMetadata where
  ns : NamespaceRef
  metadata : Option NamespaceMetadata
  region : Option String
  «recall» : Option RecallData
deriving DecidableEq

/-- FetchNamespacesOptions (metadata-fetcher.ts). -/
structure FetchNamespacesOptions where
  allRegions : Bool
  region : Option String
  includeRecall : Bool
deriving DecidableEq

/-- The external Turbopuffer client, as consumed by the fetcher. Each function
takes the region the client was constructed with (`getTurbopufferClient`);
a thrown exception is `.error` with the message. `getRecall` also takes the
`num` and `top_k` sampling parameters of the recall call. -/
structure ClientEnv where
  listNamespaces : Option String → Except String (List NamespaceRef)
  getMetadata : Option String → String → Except String NamespaceMetadata
  getRecall : Option String → String → Nat → Nat → Except String RecallData

/-- fetchRecallData (metadata-fetcher.ts): one recall-estimation call with
num = 25, top_k = 10; a failing call is caught and yields null. -/
def fetchRecallData (env : ClientEnv) (region : Option String)
    (namespaceId : String) : Option RecallData :=
  match env.getRecall region namespaceId 25 10 with
  | .ok r => some r
  | .error _ => none

/-- One per-namespace record as assembled by both branches of
fetchNamespacesWithMetadata: the metadata call is caught per namespace
(null on failure), recall is fetched only when requested. -/
def fetchEntry (env : ClientEnv) (region : Option String) (includeRecall : Bool)
    (n : NamespaceRef) : NamespaceWithMetadata :=
  { ns := n
  , metadata :=
      match env.getMetadata region n.id with
      | .ok m => some m
      | .error _ => none
  , region := region
  , «recall» := if includeRecall then fetchRecallData env region n.id else none }

/-- The contribution of one region in all-regions mode: empty when the
region-level listing call fails (the region is skipped), otherwise one entry
per listed namespace. -/
def regionFetchResult (env : ClientEnv) (includeRecall : Bool) (r : String) :
    List NamespaceWithMetadata :=
  match env.listNamespaces (some r) with
  | .error _ => []
  | .ok page => page.map (fetchEntry env (some r) includeRecall)

/-- fetchNamespacesWithMetadata (metadata-fetcher.ts). In all-regions mode the
static region list is walked sequentially, each region's listing wrapped in a
try/catch that skips the region on error; in single-region mode the listing
call is not guarded, so its failure propagates. -/
def fetchNamespacesWithMetadata (env : ClientEnv)
    (options : FetchNamespacesOptions) :
    Except String (List NamespaceWithMetadata) :=
  if options.allRegions then
    .ok (TURBOPUFFER_REGIONS.foldl
      (fun acc currentRegion =>
        match env.listNamespaces (some currentRegion) with
        | .error _ => acc
        | .ok page =>
            if 0 < page.length then
              acc ++ page.map (fetchEntry env (some currentRegion)
                options.includeRecall)
            else acc)
      [])
  else
    match env.listNamespaces options.region with
    | .error e => .error e
    | .ok namespaces =>
        .ok (namespaces.map (fetchEntry env options.region
          options.includeRecall))

/-- getEncryptionType (metadata-fetcher.ts): cmek when a cmek descriptor is
present, sse otherwise (including missing metadata or missing encryption). -/
def getEncryptionType (metadata : Option NamespaceMetadata) : String :=
  match metadata with
  | none => "sse"
  | some m =>
      match m.encryption with
      | none => "sse"
      | some e => if e.cmek.isSome then "cmek" else "sse"

/-- getIndexStatus (metadata-fetcher.ts). The JS guard `!metadata?.index` also
covers an absent index payload, which the typed interface rules out, so only
the null-metadata case remains. -/
def getIndexStatus (metadata : Option NamespaceMetadata) : IndexStatus :=
  match metadata with
  | none => .upToDate
  | some m => m.index.status

/-- getUnindexedBytes (metadata-fetcher.ts): 0 when metadata is missing or the
index is up-to-date, otherwise `unindexed_bytes || 0`. -/
def getUnindexedBytes (metadata : Option NamespaceMetadata) : Nat :=
  match metadata with
  | none => 0
  | some m =>
      match m.index.status with
      | .upToDate => 0
      | .updating => m.index.unindexed_bytes.getD 0

/-- Metric type union of the PrometheusMetric interface (metrics.ts). -/
inductive MetricType where
  | gauge
  | counter
  | histogram
  | summary
deriving DecidableEq

/-- Text of a metric type as emitted on the TYPE line. -/
def MetricType.text : MetricType → String
  | .gauge => "gauge"
  | .counter => "counter"
  | .histogram => "histogram"
  | .summary => "summary"

/-- One (label-set, value) sample of a metric family (MetricValue in
metrics.ts). Labels are kept in the object-insertion order that
`Object.entries` exposes; all label values in this program are strings. -/
structure MetricValue where
  labels : List (String × String)
  value : Rat
deriving DecidableEq

/-- PrometheusMetric (metrics.ts): one metric family. -/
structure PrometheusMetric where
  name : String
  type : MetricType
  help : String
  values : List MetricValue
deriving DecidableEq

/-- One global single-character replacement pass, the semantics of
`str.replace(/c/g, rep)` for a one-character pattern. -/
def replaceChar (c : Char) (rep : List Char) : List Char → List Char
  | [] => []
  | a :: l => (if a = c then rep else [a]) ++ replaceChar c rep l

/-- escapeLabel (metrics.ts): three sequential global replaces — backslash to
a doubled backslash, double quote to backslash-quote, newline to
backslash-n. -/
def escapeLabel (value : String) : String :=
  String.mk (replaceChar '\n' ['\\', 'n']
    (replaceChar '"' ['\\', '"']
      (replaceChar '\\' ['\\', '\\'] value.data)))

/-- Rendering of a JS numeric metric value into the sample line. The JS
number-to-string conversion is abstracted as an injective rendering of the
rational value. -/
def ratText (q : Rat) : String :=
  if q.den = 1 then toString q.num else toString q.num ++ "/" ++ toString q.den

/-- The sample line emitted for one metric value: label pairs joined with
commas inside braces when any labels exist, bare name otherwise. -/
def sampleLine (name : String) (v : MetricValue) : String :=
  let labelPairs := String.join (List.intersperse ","
    (v.labels.map (fun p => p.1 ++ "=\"" ++ escapeLabel p.2 ++ "\"")))
  if labelPairs ≠ "" then
    name ++ "\x7b" ++ labelPairs ++ "\x7d" ++ " " ++ ratText v.value ++ "\n"
  else
    name ++ " " ++ ratText v.value ++ "\n"

/-- formatPrometheusMetric (metrics.ts): HELP line, TYPE line, then one sample
line per value, accumulated by string concatenation. -/
def formatPrometheusMetric (metric : PrometheusMetric) : String :=
  "# HELP " ++ metric.name ++ " " ++ metric.help ++ "\n" ++
  "# TYPE " ++ metric.name ++ " " ++ metric.type.text ++ "\n" ++
  String.join (metric.values.map (sampleLine metric.name))

/-- Tail of a JS `Array.join(sep)`: separator before every element. -/
def joinWithRest (sep : String) : List String → String
  | [] => ""
  | y :: ys => sep ++ y ++ joinWithRest sep ys

/-- JS `Array.join(sep)`: elements interleaved with the separator. -/
def joinWith (sep : String) : List String → String
  | [] => ""
  | x :: xs => x ++ joinWithRest sep xs

/-- formatPrometheusMetrics (metrics.ts): per-family texts joined with a blank
line separator (`join('\n')`, each family text already ends in a newline). -/
def formatPrometheusMetrics (metrics : List PrometheusMetric) : String :=
  joinWith "\n" (metrics.map formatPrometheusMetric)

/-- createSimpleGauge (metrics.ts): a gauge family with one unlabelled
sample. -/
def createSimpleGauge (name : String) (help : String) (value : Rat) :
    PrometheusMetric :=
  { name := name, type := .gauge, help := help
  , values := [{ labels := [], value := value }] }

/-- getCurrentTimestamp (metrics.ts): `Math.floor(Date.now() / 1000)` at epoch
milliseconds `now`. -/
def getCurrentTimestamp (now : Int) : Int :=
  Int.fdiv now 1000

/-- The namespaces that survive the `if (!ns.metadata) continue` guard of the
metric-population loop in generatePrometheusMetrics (export.ts), paired with
their (non-null) metadata. -/
def withMeta (namespaces : List NamespaceWithMetadata) :
    List (NamespaceWithMetadata × NamespaceMetadata) :=
  namespaces.filterMap (fun ns => ns.metadata.map (fun m => (ns, m)))

/-- JS `ns.region || 'unknown'`: undefined and the empty string are falsy. -/
def jsRegionLabel (region : Option String) : String :=
  match region with
  | none => "unknown"
  | some s => if s = "" then "unknown" else s

/-- The shared label set `{namespace, region, encryption, index_status}` built
for each namespace in generatePrometheusMetrics (export.ts). -/
def nsLabels (ns : NamespaceWithMetadata) (m : NamespaceMetadata) :
    List (String × String) :=
  [ ("namespace", ns.ns.id)
  , ("region", jsRegionLabel ns.region)
  , ("encryption", getEncryptionType (some m))
  , ("index_status", (getIndexStatus (some m)).text) ]

/-- Samples of the turbopuffer_namespace_rows family. -/
def rowsValuesOf (namespaces : List NamespaceWithMetadata) : List MetricValue :=
  (withMeta namespaces).map
    (fun p => { labels := nsLabels p.1 p.2, value := (p.2.approx_row_count : Rat) })

/-- Samples of the turbopuffer_namespace_logical_bytes family. -/
def logicalBytesValuesOf (namespaces : List NamespaceWithMetadata) :
    List MetricValue :=
  (withMeta namespaces).map
    (fun p => { labels := nsLabels p.1 p.2
              , value := (p.2.approx_logical_bytes : Rat) })

/-- Samples of the turbopuffer_namespace_unindexed_bytes family. -/
def unindexedBytesValuesOf (namespaces : List NamespaceWithMetadata) :
    List MetricValue :=
  (withMeta namespaces).map
    (fun p => { labels := nsLabels p.1 p.2
              , value := (getUnindexedBytes (some p.2) : Rat) })

/-- Samples of the turbopuffer_namespace_recall family: only namespaces whose
snapshot carries recall data contribute. -/
def recallValuesOf (namespaces : List NamespaceWithMetadata) :
    List MetricValue :=
  (withMeta namespaces).filterMap
    (fun p => p.1.«recall».map
      (fun r => { labels := nsLabels p.1 p.2, value := r.avg_recall }))

/-- Samples of the turbopuffer_namespace_info family: the shared labels plus
updated_at, constant value 1. -/
def infoValuesOf (namespaces : List NamespaceWithMetadata) : List MetricValue :=
  (withMeta namespaces).map
    (fun p => { labels := nsLabels p.1 p.2 ++ [("updated_at", p.2.updated_at)]
              , value := (1 : Rat) })

/-- The rows metric family with its populated samples. -/
def rowsFamily (namespaces : List NamespaceWithMetadata) : PrometheusMetric :=
  { name := "turbopuffer_namespace_rows", type := .gauge
  , help := "Approximate number of rows in namespace"
  , values := rowsValuesOf namespaces }

/-- The logical-bytes metric family with its populated samples. -/
def logicalBytesFamily (namespaces : List NamespaceWithMetadata) :
    PrometheusMetric :=
  { name := "turbopuffer_namespace_logical_bytes", type := .gauge
  , help := "Approximate logical storage size in bytes"
  , values := logicalBytesValuesOf namespaces }

/-- The unindexed-bytes metric family with its populated samples. -/
def unindexedBytesFamily (namespaces : List NamespaceWithMetadata) :
    PrometheusMetric :=
  { name := "turbopuffer_namespace_unindexed_bytes", type := .gauge
  , help := "Number of unindexed bytes (0 when index is up-to-date)"
  , values := unindexedBytesValuesOf namespaces }

/-- The recall metric family with its populated samples. -/
def recallFamily (namespaces : List NamespaceWithMetadata) : PrometheusMetric :=
  { name := "turbopuffer_namespace_recall", type := .gauge
  , help := "Average vector recall estimation (0-1 scale)"
  , values := recallValuesOf namespaces }

/-- The info metric family with its populated samples. -/
def infoFamily (namespaces : List NamespaceWithMetadata) : PrometheusMetric :=
  { name := "turbopuffer_namespace_info", type := .gauge
  , help := "Namespace information with labels"
  , values := infoValuesOf namespaces }

/-- generatePrometheusMetrics (export.ts): the five per-namespace families in
declaration order, each included only when it has at least one sample. -/
def generatePrometheusMetrics (namespaces : List NamespaceWithMetadata) :
    List PrometheusMetric :=
  (if 0 < (rowsValuesOf namespaces).length
    then [rowsFamily namespaces] else []) ++
  (if 0 < (logicalBytesValuesOf namespaces).length
    then [logicalBytesFamily namespaces] else []) ++
  (if 0 < (unindexedBytesValuesOf namespaces).length
    then [unindexedBytesFamily namespaces] else []) ++
  (if 0 < (recallValuesOf namespaces).length
    then [recallFamily namespaces] else []) ++
  (if 0 < (infoValuesOf namespaces).length
    then [infoFamily namespaces] else [])

/-- ServerOptions (export.ts): the validated configuration handed to the HTTP
server and refresh loop. Intervals are in seconds. -/
structure ServerOptions where
  port : Int
  region : Option String
  allRegions : Bool
  interval : Int
  timeout : Int
  includeRecall : Bool
  recallInterval : Int
deriving DecidableEq

/-- MetricsCache (export.ts): the served rendered text, the timestamp of the
last successful update (epoch milliseconds) and the optional error of the last
attempt. -/
structure MetricsCache where
  data : String
  lastUpdate : Int
  error : Option String
deriving DecidableEq

/-- One value of the recall cache map: the recall triple and the region the
namespace was observed in. -/
structure RecallCacheEntry where
  «recall» : RecallData
  region : Option String
deriving DecidableEq

/-- RecallCache (export.ts): a JS Map keyed by namespace id (modelled as an
association list with unique keys) plus its own lastUpdate timestamp. -/
structure RecallCache where
  data : List (String × RecallCacheEntry)
  lastUpdate : Int
deriving DecidableEq

/-- The exporter's module-level mutable state: both caches. -/
structure ExporterState where
  metricsCache : MetricsCache
  recallCache : RecallCache
deriving DecidableEq

/-- The placeholder text the metrics cache is initialized with. -/
def placeholderText : String := "# Waiting for first scrape...\n"

/-- Initial metricsCache value (export.ts module initialization):
the placeholder and the process start time. -/
def initialMetricsCache (startTime : Int) : MetricsCache :=
  { data := placeholderText, lastUpdate := startTime, error := none }

/-- Initial recallCache value: empty map, lastUpdate at the epoch to trigger an
immediate first recall fetch. -/
def initialRecallCache : RecallCache :=
  { data := [], lastUpdate := 0 }

/-- Initial exporter state at process start. -/
def initialState (startTime : Int) : ExporterState :=
  { metricsCache := initialMetricsCache startTime
  , recallCache := initialRecallCache }

/-- JS `Map.get`: the value stored under a key, if any. -/
def mapGet (m : List (String × RecallCacheEntry)) (k : String) :
    Option RecallCacheEntry :=
  (m.find? (fun p => p.1 = k)).map Prod.snd

/-- JS `Map.set`: overwrite the existing entry for the key in place, or append
a new entry at the end. -/
def mapSet (m : List (String × RecallCacheEntry)) (k : String)
    (v : RecallCacheEntry) : List (String × RecallCacheEntry) :=
  if m.any (fun p => p.1 = k) then
    m.map (fun p => if p.1 = k then (k, v) else p)
  else
    m ++ [(k, v)]

/-- The recall-cache contents rebuilt on a recall refresh (export.ts,
refreshMetrics): after `recallCache.data.clear()`, every namespace with a
non-null recall is `set` under its id, with the region stored in the value. -/
def buildRecallCacheData (namespaces : List NamespaceWithMetadata) :
    List (String × RecallCacheEntry) :=
  namespaces.foldl
    (fun m ns =>
      match ns.«recall» with
      | some r => mapSet m ns.ns.id { «recall» := r, region := ns.region }
      | none => m)
    []

/-- The stale-recall merge of refreshMetrics (export.ts): a cached entry is
merged into a snapshot only when one exists under the snapshot's id and its
stored region strictly equals the snapshot's region. -/
def mergeCachedRecall (cache : List (String × RecallCacheEntry))
    (ns : NamespaceWithMetadata) : NamespaceWithMetadata :=
  match mapGet cache ns.ns.id with
  | some cached =>
      if cached.region = ns.region then { ns with «recall» := some cached.«recall» }
      else ns
  | none => ns

/-- The recall-due decision of refreshMetrics (export.ts):
`includeRecall && (Date.now() - recallCache.lastUpdate >= recallInterval * 1000)`. -/
def shouldRefreshRecall (options : ServerOptions) (now : Int)
    (recallLastUpdate : Int) : Bool :=
  options.includeRecall &&
    decide (options.recallInterval * 1000 ≤ now - recallLastUpdate)

/-- Date.prototype.toISOString, abstracted as an injective rendering of the
epoch-millisecond timestamp. -/
def isoString (t : Int) : String := toString t

/-- The two comment lines prepended to the previous rendering on a failed
cycle, naming the error and the last successful update time. -/
def errorComment (errorMessage : String) (lastUpdate : Int) : String :=
  "# Error refreshing metrics: " ++ errorMessage ++
  "\n# Last successful update: " ++ isoString lastUpdate ++ "\n\n"

/-- The fetch performed by one refresh cycle: fetchNamespacesWithMetadata with
the configured region mode and includeRecall set to the recall-due decision. -/
def fetchForCycle (options : ServerOptions) (env : ClientEnv) (now : Int)
    (st : ExporterState) : Except String (List NamespaceWithMetadata) :=
  fetchNamespacesWithMetadata env
    { allRegions := options.allRegions
    , region := options.region
    , includeRecall := shouldRefreshRecall options now st.recallCache.lastUpdate }

/-- The namespace list used for metric generation: unchanged when recall was
refreshed this cycle or recall is disabled; otherwise (recall enabled, not
due) stale cached recall entries are merged in. -/
def mergedNamespaces (options : ServerOptions) (now : Int) (st : ExporterState)
    (namespaces : List NamespaceWithMetadata) : List NamespaceWithMetadata :=
  if shouldRefreshRecall options now st.recallCache.lastUpdate then namespaces
  else if options.includeRecall then
    namespaces.map (mergeCachedRecall st.recallCache.data)
  else namespaces

/-- The full metric list of a successful cycle: the generated per-namespace
families followed by the two exporter self-monitoring gauges. Under the
single-instant time model the scrape duration is 0 seconds. -/
def cycleMetrics (options : ServerOptions) (now : Int) (st : ExporterState)
    (namespaces : List NamespaceWithMetadata) : List PrometheusMetric :=
  generatePrometheusMetrics (mergedNamespaces options now st namespaces) ++
  [ createSimpleGauge "turbopuffer_exporter_scrape_duration_seconds"
      "Time taken to fetch metrics from Turbopuffer API" 0
  , createSimpleGauge "turbopuffer_exporter_last_scrape_timestamp_seconds"
      "Unix timestamp of last successful scrape" ((getCurrentTimestamp now : Int) : Rat) ]

/-- refreshMetrics (export.ts): one refresh cycle as a function of the current
state. On success both caches are replaced (the recall cache only when the
refresh was due); on a cycle-level error the previous rendered text is kept,
prefixed with the error comment, the error field is set, and both lastUpdate
timestamps as well as the recall cache are left untouched. -/
def refreshMetrics (options : ServerOptions) (env : ClientEnv) (now : Int)
    (st : ExporterState) : ExporterState :=
  match fetchForCycle options env now st with
  | .error e =>
      { st with metricsCache :=
          { st.metricsCache with
              error := some e
            , data := errorComment e st.metricsCache.lastUpdate ++
                st.metricsCache.data } }
  | .ok namespaces =>
      { metricsCache :=
          { data := formatPrometheusMetrics (cycleMetrics options now st namespaces)
          , lastUpdate := now
          , error := none }
      , recallCache :=
          if shouldRefreshRecall options now st.recallCache.lastUpdate then
            { data := buildRecallCacheData namespaces, lastUpdate := now }
          else st.recallCache }

/-- The body served by `GET /metrics` (export.ts HTTP handler): the cache text,
always with status 200. -/
def servedMetricsBody (st : ExporterState) : String :=
  st.metricsCache.data

/-- The error field served by `GET /health` (export.ts HTTP handler):
`metricsCache.error || null`. -/
def servedHealthError (st : ExporterState) : Option String :=
  st.metricsCache.error

/-- JS truthiness of an optional string option value: present and nonempty. -/
def jsTruthy (o : Option String) : Bool :=
  match o with
  | some s => s ≠ ""
  | none => false

/-- The startup validation sequence of createExportCommand (export.ts),
returning the first rejection message; `parseInt` failures (NaN) are folded
into the range checks. This runs in the CLI layer before the exporter (and its
fetcher) ever starts. -/
def validateExportOptions (port interval timeout recallInterval : Int)
    (allRegions : Bool) (region : Option String) : Except String Unit :=
  if port < 1 ∨ 65535 < port then
    .error "Port must be a number between 1 and 65535"
  else if interval < 1 then
    .error "Interval must be a positive number"
  else if timeout < 1 then
    .error "Timeout must be a positive number"
  else if recallInterval < 1 then
    .error "Recall interval must be a positive number"
  else if allRegions && jsTruthy region then
    .error "Cannot use both --all-regions and --region flags together"
  else
    .ok ()

/-- Per-character specification of escapeLabel: the image of one input
character after all three replacement passes. -/
def escChar (c : Char) : List Char :=
  if c = '\\' then ['\\', '\\']
  else if c = '"' then ['\\', '"']
  else if c = '\n' then ['\\', 'n']
  else [c]

/-- Modelled from the spec: a compliant Prometheus text-format label-value
unescaper (the inverse direction of the exposition-format escaping rules for
backslash, double quote and line feed), used to state the round-trip claim.
It rejects a dangling or unknown escape sequence. -/
def promUnescape : List Char → Option (List Char)
  | [] => some []
  | a :: l =>
    if a = '\\' then
      match l with
      | [] => none
      | b :: l2 =>
        if b = '\\' then (promUnescape l2).map (fun t => '\\' :: t)
        else if b = '"' then (promUnescape l2).map (fun t => '"' :: t)
        else if b = 'n' then (promUnescape l2).map (fun t => '\n' :: t)
        else none
    else (promUnescape l).map (fun t => a :: t)

/-- Test environment in which every outbound call fails. -/
def envListFail : ClientEnv :=
  { listNamespaces := fun _ => .error "network down"
  , getMetadata := fun _ _ => .error "meta down"
  , getRecall := fun _ _ _ _ => .error "recall down" }

/-- Test environment in which every listing succeeds with one namespace and
every metadata call succeeds. -/
def envOkEmpty : ClientEnv :=
  { listNamespaces := fun _ => .ok []
  , getMetadata := fun _ _ => .error "meta down"
  , getRecall := fun _ _ _ _ => .error "recall down" }

/-- Test environment: two regions both expose the same namespace id with
successful recall calls returning distinct triples; all other regions are
unreachable and metadata always fails. -/
def envTwoRegions : ClientEnv :=
  { listNamespaces := fun r =>
      if r = some "gcp-us-central1" ∨ r = some "gcp-us-west1" then .ok [⟨"a"⟩]
      else .error "unreachable"
  , getMetadata := fun _ _ => .error "meta down"
  , getRecall := fun r _ _ _ =>
      if r = some "gcp-us-central1" then .ok ⟨1, 10, 10⟩ else .ok ⟨0, 10, 10⟩ }

/-- Test configuration: all-regions mode with recall enabled (defaults
otherwise). -/
def optsAll : ServerOptions :=
  { port := 9876, region := none, allRegions := true, interval := 60
  , timeout := 30, includeRecall := true, recallInterval := 3600 }

/-- Test configuration: single-region mode with recall enabled. -/
def optsSingle : ServerOptions :=
  { port := 9876, region := none, allRegions := false, interval := 60
  , timeout := 30, includeRecall := true, recallInterval := 3600 }

/-- Test metadata: an up-to-date index that nevertheless reports a nonzero
upstream unindexed_bytes value. -/
def mdUpToDate : NamespaceMetadata :=
  { approx_row_count := 100, approx_logical_bytes := 2048
  , index := { status := .upToDate, unindexed_bytes := some 999 }
  , encryption := none
  , updated_at := "2024-01-01T00:00:00.000Z"
  , created_at := "2024-01-01T00:00:00.000Z" }

/-- Test snapshot built from the up-to-date test metadata. -/
def nsUpToDate : NamespaceWithMetadata :=
  { ns := ⟨"a"⟩, metadata := some mdUpToDate
  , region := some "gcp-us-central1", «recall» := none }

/-- Test metric family with an empty sample list. -/
def emptyRecallFamily : PrometheusMetric :=
  { name := "turbopuffer_namespace_recall", type := .gauge
  , help := "Average vector recall estimation (0-1 scale)", values := [] }

/-- Test recall-cache entry stored under region gcp-us-central1. -/
def cachedR1 : RecallCacheEntry :=
  { «recall» := ⟨1, 10, 10⟩, region := some "gcp-us-central1" }

/-- Test snapshot with the cached id but a different region. -/
def nsOtherRegion : NamespaceWithMetadata :=
  { ns := ⟨"a"⟩, metadata := none, region := some "gcp-us-west1"
  , «recall» := none }

/-- Test snapshot with the cached id and the matching region. -/
def nsSameRegion : NamespaceWithMetadata :=
  { ns := ⟨"a"⟩, metadata := none, region := some "gcp-us-central1"
  , «recall» := none }

theorem strData_append (s t : String) : (s ++ t).data = s.data ++ t.data := by
  cases s
  cases t
  rfl

theorem strExt {s t : String} (h : s.data = t.data) : s = t := by
  cases s
  cases t
  exact congrArg String.mk h

theorem strApp_assoc (a b c : String) : a ++ b ++ c = a ++ (b ++ c) := by
  apply strExt
  rw [strData_append, strData_append, strData_append, strData_append,
    List.append_assoc]

theorem take_len_append {α : Type} (l₁ l₂ : List α) :
    (l₁ ++ l₂).take l₁.length = l₁ := by
  induction l₁ with
  | nil => simp
  | cons a l ih => simp [ih]

theorem append_head_ne (a t : String)
    (h : t.data.take a.data.length ≠ a.data) (z : String) : a ++ z ≠ t := by
  intro he
  apply h
  rw [← he, strData_append, take_len_append]

theorem formatPM_shape (m : PrometheusMetric) :
    ∃ z, formatPrometheusMetric m = "# HELP " ++ z := by
  refine ⟨m.name ++ (" " ++ (m.help ++ ("\n# TYPE " ++ (m.name ++
    (" " ++ (m.type.text ++ ("\n" ++
      String.join (m.values.map (sampleLine m.name))))))))), ?_⟩
  simp [formatPrometheusMetric, strApp_assoc]

theorem exists_cons_of_append_two {α : Type} (l : List α) (a b : α) :
    ∃ m rest, l ++ [a, b] = m :: rest := by
  cases l with
  | nil => exact ⟨a, [b], rfl⟩
  | cons x xs => exact ⟨x, xs ++ [a, b], rfl⟩

theorem joinWith_cons (sep x : String) (xs : List String) :
    joinWith sep (x :: xs) = x ++ joinWithRest sep xs := rfl

theorem cycleText_shape (options : ServerOptions) (env_now : Int)
    (st : ExporterState) (namespaces : List NamespaceWithMetadata) :
    ∃ z, formatPrometheusMetrics (cycleMetrics options env_now st namespaces) =
      "# HELP " ++ z := by
  obtain ⟨m, rest, hl⟩ := exists_cons_of_append_two
    (generatePrometheusMetrics (mergedNamespaces options env_now st namespaces))
    (createSimpleGauge "turbopuffer_exporter_scrape_duration_seconds"
      "Time taken to fetch metrics from Turbopuffer API" 0)
    (createSimpleGauge "turbopuffer_exporter_last_scrape_timestamp_seconds"
      "Unix timestamp of last successful scrape"
      ((getCurrentTimestamp env_now : Int) : Rat))
  obtain ⟨z, hz⟩ := formatPM_shape m
  refine ⟨z ++ joinWithRest "\n" (rest.map formatPrometheusMetric), ?_⟩
  rw [cycleMetrics, hl]
  rw [formatPrometheusMetrics, List.map_cons, joinWith_cons, hz, strApp_assoc]

theorem errorData_shape (e : String) (lu : Int) (old : String) :
    errorComment e lu ++ old = "# Error refreshing metrics: " ++
      (e ++ ("\n# Last successful update: " ++ (isoString lu ++ ("\n\n" ++ old)))) := by
  simp [errorComment, strApp_assoc]

theorem refreshMetrics_error_eq (options : ServerOptions) (env : ClientEnv)
    (now : Int) (st : ExporterState) (e : String)
    (h : fetchForCycle options env now st = .error e) :
    refreshMetrics options env now st =
      { metricsCache :=
          { data := errorComment e st.metricsCache.lastUpdate ++
              st.metricsCache.data
          , lastUpdate := st.metricsCache.lastUpdate
          , error := some e }
      , recallCache := st.recallCache } := by
  obtain ⟨⟨d, lu, er⟩, rc⟩ := st
  unfold refreshMetrics
  rw [h]

theorem foldlStep_eq_bind (env : ClientEnv) (ic : Bool) :
    ∀ (rs : List String) (acc : List NamespaceWithMetadata),
      rs.foldl
        (fun acc currentRegion =>
          match env.listNamespaces (some currentRegion) with
          | .error _ => acc
          | .ok page =>
              if 0 < page.length then
                acc ++ page.map (fetchEntry env (some currentRegion) ic)
              else acc)
        acc
      = acc ++ rs.flatMap (regionFetchResult env ic) := by
  intro rs
  induction rs with
  | nil => simp
  | cons r rs ih =>
      intro acc
      rw [List.foldl_cons, List.flatMap_cons, ih]
      have hstep :
          (match env.listNamespaces (some r) with
            | .error _ => acc
            | .ok page =>
                if 0 < page.length then
                  acc ++ page.map (fetchEntry env (some r) ic)
                else acc)
          = acc ++ regionFetchResult env ic r := by
        cases hl : env.listNamespaces (some r) with
        | error e => simp [regionFetchResult, hl]
        | ok page =>
            cases page with
            | nil => simp [regionFetchResult, hl]
            | cons n ns => simp [regionFetchResult, hl]
      rw [hstep, List.append_assoc]

theorem fetchAll_eq_bind (env : ClientEnv) (r : Option String) (ic : Bool) :
    fetchNamespacesWithMetadata env
        { allRegions := true, region := r, includeRecall := ic } =
      .ok (TURBOPUFFER_REGIONS.flatMap (regionFetchResult env ic)) := by
  unfold fetchNamespacesWithMetadata
  rw [if_pos rfl, foldlStep_eq_bind, List.nil_append]

theorem withMeta_filter (nss : List NamespaceWithMetadata) :
    withMeta (nss.filter (fun ns => ns.metadata.isSome)) = withMeta nss := by
  induction nss with
  | nil => rfl
  | cons ns l ih =>
      cases h : ns.metadata with
      | none => simp [withMeta, List.filter_cons, List.filterMap_cons, h] at ih ⊢
                exact ih
      | some m => simp [withMeta, List.filter_cons, List.filterMap_cons, h] at ih ⊢
                  exact ih

theorem generate_skips_null_metadata (nss : List NamespaceWithMetadata) :
    generatePrometheusMetrics nss =
      generatePrometheusMetrics (nss.filter (fun ns => ns.metadata.isSome)) := by
  simp only [generatePrometheusMetrics, rowsFamily, logicalBytesFamily,
    unindexedBytesFamily, recallFamily, infoFamily, rowsValuesOf,
    logicalBytesValuesOf, unindexedBytesValuesOf, recallValuesOf, infoValuesOf,
    withMeta_filter]

theorem helpHead_ne_empty (z : String) : "# HELP " ++ z ≠ "" :=
  append_head_ne "# HELP " "" (by decide) z

theorem helpHead_ne_placeholder (z : String) : "# HELP " ++ z ≠ placeholderText :=
  append_head_ne "# HELP " placeholderText (by decide) z

theorem errHead_ne_empty (z : String) :
    "# Error refreshing metrics: " ++ z ≠ "" :=
  append_head_ne "# Error refreshing metrics: " "" (by decide) z

theorem errHead_ne_placeholder (z : String) :
    "# Error refreshing metrics: " ++ z ≠ placeholderText :=
  append_head_ne "# Error refreshing metrics: " placeholderText (by decide) z

theorem mem_withMeta {nss : List NamespaceWithMetadata}
    {ns : NamespaceWithMetadata} {m : NamespaceMetadata}
    (h1 : ns ∈ nss) (h2 : ns.metadata = some m) : (ns, m) ∈ withMeta nss := by
  unfold withMeta
  exact List.mem_filterMap.mpr ⟨ns, h1, by rw [h2]; rfl⟩

theorem mapSet_keys_nodup (m : List (String × RecallCacheEntry)) (k : String)
    (v : RecallCacheEntry) (h : (m.map Prod.fst).Nodup) :
    ((mapSet m k v).map Prod.fst).Nodup := by
  unfold mapSet
  split
  · have hkeys : (m.map (fun p => if p.1 = k then (k, v) else p)).map Prod.fst
        = m.map Prod.fst := by
      rw [List.map_map]
      apply List.map_congr_left
      intro p _
      by_cases hp : p.1 = k
      · simp [hp]
      · simp [hp]
    rw [hkeys]
    exact h
  · rename_i hnot
    have hk : k ∉ m.map Prod.fst := by
      intro hx
      apply hnot
      obtain ⟨p, hp, hpf⟩ := List.mem_map.mp hx
      rw [List.any_eq_true]
      exact ⟨p, hp, by simp [hpf]⟩
    rw [List.map_append, List.nodup_append]
    exact ⟨h, List.nodup_singleton k, List.disjoint_singleton.mpr hk⟩

theorem buildRecall_keys_nodup_aux :
    ∀ (nss : List NamespaceWithMetadata) (m : List (String × RecallCacheEntry)),
      (m.map Prod.fst).Nodup →
      ((nss.foldl
        (fun m ns =>
          match ns.«recall» with
          | some r => mapSet m ns.ns.id { «recall» := r, region := ns.region }
          | none => m)
        m).map Prod.fst).Nodup := by
  intro nss
  induction nss with
  | nil => intro m h; exact h
  | cons ns l ih =>
      intro m h
      rw [List.foldl_cons]
      cases hr : ns.«recall» with
      | none => exact ih m (by simpa [hr] using h)
      | some r =>
          simp only [hr]
          exact ih _ (mapSet_keys_nodup m ns.ns.id _ h)

theorem buildRecall_keys_nodup (nss : List NamespaceWithMetadata) :
    ((buildRecallCacheData nss).map Prod.fst).Nodup :=
  buildRecall_keys_nodup_aux nss [] (by simp)

theorem replaceChar_append (c : Char) (rep : List Char) :
    ∀ (x y : List Char),
      replaceChar c rep (x ++ y) = replaceChar c rep x ++ replaceChar c rep y := by
  intro x y
  induction x with
  | nil => rfl
  | cons a l ih => simp [replaceChar, ih, List.append_assoc]

theorem escapeLabel_eq_bind (s : String) :
    (escapeLabel s).data = s.data.flatMap escChar := by
  show replaceChar '\n' ['\\', 'n'] (replaceChar '"' ['\\', '"']
      (replaceChar '\\' ['\\', '\\'] s.data)) = s.data.flatMap escChar
  induction s.data with
  | nil => rfl
  | cons a l ih =>
      have h1 : replaceChar '\\' ['\\', '\\'] (a :: l) =
          (if a = '\\' then ['\\', '\\'] else [a]) ++
            replaceChar '\\' ['\\', '\\'] l := rfl
      rw [h1, replaceChar_append, replaceChar_append, ih, List.flatMap_cons]
      congr 1
      by_cases ha : a = '\\'
      · subst ha; decide
      · by_cases hb : a = '"'
        · subst hb; decide
        · by_cases hc : a = '\n'
          · subst hc; decide
          · simp [replaceChar, escChar, ha, hb, hc]

theorem promUnescape_flatMap_escChar :
    ∀ l : List Char, promUnescape (l.flatMap escChar) = some l := by
  intro l
  induction l with
  | nil => rfl
  | cons a l ih =>
      rw [List.flatMap_cons]
      by_cases ha : a = '\\'
      · subst ha
        show promUnescape ('\\' :: '\\' :: l.flatMap escChar) = _
        simp [promUnescape, ih]
      · by_cases hb : a = '"'
        · subst hb
          show promUnescape ('\\' :: '"' :: l.flatMap escChar) = _
          simp [promUnescape, ih]
        · by_cases hc : a = '\n'
          · subst hc
            show promUnescape ('\\' :: 'n' :: l.flatMap escChar) = _
            simp [promUnescape, ih]
          · have he : escChar a = [a] := by simp [escChar, ha, hb, hc]
            rw [he]
            show promUnescape (a :: l.flatMap escChar) = _
            rw [promUnescape.eq_def]
            simp [ha, ih]

theorem promUnescape_escapeLabel (s : String) :
    promUnescape (escapeLabel s).data = some s.data := by
  rw [escapeLabel_eq_bind]
  exact promUnescape_flatMap_escChar s.data

theorem escapeLabel_inj {s t : String} (h : escapeLabel s = escapeLabel t) :
    s = t := by
  have h2 : promUnescape (escapeLabel s).data =
      promUnescape (escapeLabel t).data := by rw [h]
  rw [promUnescape_escapeLabel, promUnescape_escapeLabel] at h2
  exact strExt (Option.some.inj h2)

theorem refreshMetrics_ok_eq (options : ServerOptions) (env : ClientEnv)
    (now : Int) (st : ExporterState) (namespaces : List NamespaceWithMetadata)
    (h : fetchForCycle options env now st = .ok namespaces) :
    refreshMetrics options env now st =
      { metricsCache :=
          { data := formatPrometheusMetrics (cycleMetrics options now st namespaces)
          , lastUpdate := now
          , error := none }
      , recallCache :=
          if shouldRefreshRecall options now st.recallCache.lastUpdate then
            { data := buildRecallCacheData namespaces, lastUpdate := now }
          else st.recallCache } := by
  unfold refreshMetrics
  rw [h]

/-- C3 counterexample: the static region list TURBOPUFFER_REGIONS has 14
entries, not 13 as the claim states. -/
theorem regions_list_not_thirteen :
    TURBOPUFFER_REGIONS.length = 14 ∧ TURBOPUFFER_REGIONS.length ≠ 13 := by
  decide

/-- C3 (amended): in all-regions mode the fetcher visits exactly the full
static region list — its result is the in-order concatenation of the
per-region contributions over TURBOPUFFER_REGIONS, for every environment and
even when a single region is also configured — and that list contains 14
regions. -/
theorem fetchAll_visits_static_region_list :
    (∀ (env : ClientEnv) (r : Option String) (ic : Bool),
        fetchNamespacesWithMetadata env
            { allRegions := true, region := r, includeRecall := ic } =
          .ok (TURBOPUFFER_REGIONS.flatMap (regionFetchResult env ic))) ∧
    TURBOPUFFER_REGIONS.length = 14 :=
  ⟨fun env r ic => fetchAll_eq_bind env r ic, by decide⟩

/-- C5: a namespace whose metadata call fails is recorded with null metadata
(and still carries its id), null-metadata namespaces contribute no samples to
the generated metric families, a region whose listing call fails contributes
nothing in all-regions mode, and the all-regions result is exactly the
concatenation of the per-region contributions (so the other regions still
contribute theirs). -/
theorem fetch_partial_failures_isolated :
    (∀ (env : ClientEnv) (region : Option String) (ic : Bool)
        (n : NamespaceRef) (e : String),
        env.getMetadata region n.id = .error e →
        (fetchEntry env region ic n).metadata = none ∧
        (fetchEntry env region ic n).ns = n) ∧
    (∀ nss, generatePrometheusMetrics nss =
        generatePrometheusMetrics (nss.filter (fun ns => ns.metadata.isSome))) ∧
    (∀ (env : ClientEnv) (ic : Bool) (r : String) (e : String),
        env.listNamespaces (some r) = .error e →
        regionFetchResult env ic r = []) ∧
    (∀ (env : ClientEnv) (r : Option String) (ic : Bool),
        fetchNamespacesWithMetadata env
            { allRegions := true, region := r, includeRecall := ic } =
          .ok (TURBOPUFFER_REGIONS.flatMap (regionFetchResult env ic))) := by
  refine ⟨?_, generate_skips_null_metadata, ?_, fun env r ic => fetchAll_eq_bind env r ic⟩
  · intro env region ic n e h
    exact ⟨by simp [fetchEntry, h], rfl⟩
  · intro env ic r e h
    simp [regionFetchResult, h]

/-- C5 witness: the partial-failure properties instantiated in the
all-failing test environment. -/
theorem fetch_partial_failures_isolated_witness :
    (fetchEntry envListFail none false ⟨"a"⟩).metadata = none ∧
    regionFetchResult envListFail false "gcp-us-central1" = [] ∧
    generatePrometheusMetrics [] =
      generatePrometheusMetrics
        (List.filter (fun ns => ns.metadata.isSome) []) :=
  ⟨(fetch_partial_failures_isolated.1 envListFail none false ⟨"a"⟩
      "meta down" rfl).1,
   fetch_partial_failures_isolated.2.2.1 envListFail false "gcp-us-central1"
     "network down" rfl,
   fetch_partial_failures_isolated.2.1 []⟩

/-- C6 counterexample: in single-region mode a failing namespace-listing call
makes the fetcher raise (return the error) instead of returning normally,
contradicting the claim that the fetcher never raises for outbound-call
failures in any mode. -/
theorem single_region_listing_failure_raises :
    fetchNamespacesWithMetadata envListFail
        { allRegions := false, region := none, includeRecall := false } =
      .error "network down" := rfl

/-- C6 (amended): the fetcher never raises in all-regions mode and never
raises for per-namespace metadata/recall failures; in single-region mode it
raises exactly when the namespace-listing call fails, propagating that error.
The region/all-regions mutual exclusion is rejected by the CLI validation
before the fetcher runs, not inside the fetcher (which ignores the single
region in all-regions mode). -/
theorem fetcher_raises_only_on_single_region_listing :
    (∀ (env : ClientEnv) (r : Option String) (ic : Bool),
        ∃ out, fetchNamespacesWithMetadata env
          { allRegions := true, region := r, includeRecall := ic } = .ok out) ∧
    (∀ (env : ClientEnv) (region : Option String) (ic : Bool),
        (∃ out, fetchNamespacesWithMetadata env
            { allRegions := false, region := region, includeRecall := ic } =
          .ok out) ∨
        (∃ e, env.listNamespaces region = .error e ∧
          fetchNamespacesWithMetadata env
              { allRegions := false, region := region, includeRecall := ic } =
            .error e)) ∧
    (∀ (port interval timeout recallInterval : Int) (region : Option String),
        1 ≤ port → port ≤ 65535 → 1 ≤ interval → 1 ≤ timeout →
        1 ≤ recallInterval → jsTruthy region = true →
        validateExportOptions port interval timeout recallInterval true region =
          .error "Cannot use both --all-regions and --region flags together") := by
  refine ⟨fun env r ic => ⟨_, fetchAll_eq_bind env r ic⟩, ?_, ?_⟩
  · intro env region ic
    cases h : env.listNamespaces region with
    | error e =>
        right
        refine ⟨e, rfl, ?_⟩
        simp [fetchNamespacesWithMetadata, h]
    | ok nss =>
        left
        refine ⟨nss.map (fetchEntry env region ic), ?_⟩
        simp [fetchNamespacesWithMetadata, h]
  · intro p i t ri region h1 h2 h3 h4 h5 h6
    unfold validateExportOptions
    rw [if_neg (by omega), if_neg (by omega), if_neg (by omega),
      if_neg (by omega), if_pos (by simp [h6])]

/-- C6 witness: the amended behavior at concrete inputs — all-regions mode
returns normally in the all-failing environment, and the CLI validation
rejects the all-regions/region combination. -/
theorem fetcher_raises_only_on_single_region_listing_witness :
    (∃ out, fetchNamespacesWithMetadata envListFail
        { allRegions := true, region := none, includeRecall := false } =
      .ok out) ∧
    validateExportOptions 9876 60 30 3600 true (some "gcp-us-central1") =
      .error "Cannot use both --all-regions and --region flags together" :=
  ⟨fetcher_raises_only_on_single_region_listing.1 envListFail none false,
   fetcher_raises_only_on_single_region_listing.2.2 9876 60 30 3600
     (some "gcp-us-central1") (by decide) (by decide) (by decide) (by decide)
     (by decide) (by decide)⟩

/-- C7: a namespace metadata whose index status is up-to-date always yields 0
unindexed bytes regardless of the upstream unindexed_bytes value, every
namespace present with metadata contributes exactly that value as its
unindexed-bytes sample, and the populated unindexed-bytes family is part of
the generated output. -/
theorem upToDate_unindexed_rendered_zero :
    (∀ m : NamespaceMetadata, m.index.status = .upToDate →
        getUnindexedBytes (some m) = 0) ∧
    (∀ (nss : List NamespaceWithMetadata) (ns : NamespaceWithMetadata)
        (m : NamespaceMetadata), ns ∈ nss → ns.metadata = some m →
        ({ labels := nsLabels ns m
         , value := (getUnindexedBytes (some m) : Rat) } : MetricValue) ∈
          unindexedBytesValuesOf nss) ∧
    (∀ nss, 0 < (unindexedBytesValuesOf nss).length →
        unindexedBytesFamily nss ∈ generatePrometheusMetrics nss) := by
  refine ⟨?_, ?_, ?_⟩
  · intro m h
    simp [getUnindexedBytes, h]
  · intro nss ns m h1 h2
    exact List.mem_map_of_mem _ (mem_withMeta h1 h2)
  · intro nss h
    simp [generatePrometheusMetrics, h]

/-- C7 witness: an up-to-date namespace reporting 999 upstream unindexed
bytes renders a 0-valued unindexed-bytes sample in the generated family. -/
theorem upToDate_unindexed_rendered_zero_witness :
    getUnindexedBytes (some mdUpToDate) = 0 ∧
    ({ labels := nsLabels nsUpToDate mdUpToDate
     , value := (getUnindexedBytes (some mdUpToDate) : Rat) } : MetricValue) ∈
      unindexedBytesValuesOf [nsUpToDate] ∧
    unindexedBytesFamily [nsUpToDate] ∈ generatePrometheusMetrics [nsUpToDate] :=
  ⟨upToDate_unindexed_rendered_zero.1 mdUpToDate rfl,
   upToDate_unindexed_rendered_zero.2.1 [nsUpToDate] nsUpToDate mdUpToDate
     (by simp) rfl,
   upToDate_unindexed_rendered_zero.2.2 [nsUpToDate] (by decide)⟩

/-- C9 counterexample: formatPrometheusMetric applied to a family with an
empty sample list still emits the HELP and TYPE header lines — the encoder
does not omit an empty family by itself. -/
theorem empty_family_still_renders_headers :
    formatPrometheusMetric emptyRecallFamily =
      "# HELP turbopuffer_namespace_recall Average vector recall estimation (0-1 scale)\n# TYPE turbopuffer_namespace_recall gauge\n" ∧
    formatPrometheusMetric emptyRecallFamily ≠ "" := by
  constructor
  · rfl
  · decide

/-- C9 (amended): metric families with zero samples are omitted from the
rendered output because generatePrometheusMetrics only includes families with
at least one sample (so every family in the list that reaches the formatter
is non-empty, and the always-appended self-monitoring gauges carry exactly
one sample); the low-level formatter itself, applied directly to an empty
family, would still emit the HELP and TYPE lines. -/
theorem rendered_families_always_nonempty :
    (∀ nss, (generatePrometheusMetrics nss).all
        (fun m => !m.values.isEmpty) = true) ∧
    (∀ (n h : String) (v : Rat), (createSimpleGauge n h v).values.length = 1) := by
  constructor
  · intro nss
    rw [List.all_eq_true]
    intro m hm
    simp only [generatePrometheusMetrics, List.mem_append] at hm
    rcases hm with ((((hm | hm) | hm) | hm) | hm) <;>
      [ (split at hm
         · rename_i hc
           simp only [List.mem_singleton] at hm
           subst hm
           simp only [rowsFamily, Bool.not_eq_eq_eq_not, Bool.not_true]
           simp [List.isEmpty_iff]
           exact List.length_pos.mp hc
         · simp at hm);
        (split at hm
         · rename_i hc
           simp only [List.mem_singleton] at hm
           subst hm
           simp only [logicalBytesFamily]
           simp [List.isEmpty_iff]
           exact List.length_pos.mp hc
         · simp at hm);
        (split at hm
         · rename_i hc
           simp only [List.mem_singleton] at hm
           subst hm
           simp only [unindexedBytesFamily]
           simp [List.isEmpty_iff]
           exact List.length_pos.mp hc
         · simp at hm);
        (split at hm
         · rename_i hc
           simp only [List.mem_singleton] at hm
           subst hm
           simp only [recallFamily]
           simp [List.isEmpty_iff]
           exact List.length_pos.mp hc
         · simp at hm);
        (split at hm
         · rename_i hc
           simp only [List.mem_singleton] at hm
           subst hm
           simp only [infoFamily]
           simp [List.isEmpty_iff]
           exact List.length_pos.mp hc
         · simp at hm) ]
  · intro n h v
    rfl

set_option maxHeartbeats 2000000 in
/-- C1: on a cycle-level error the served metrics text becomes the previous
text prefixed with the error comment (naming the error and the previous
lastUpdate) and the served health error is set to the message; after any
refresh cycle the served metrics text is non-empty and is never the initial
placeholder again; and a successful cycle clears the served health error —
so /health tracks the latest attempt while /metrics keeps the last good
rendering. -/
theorem failed_cycle_serves_stale_labeled :
    (∀ (options : ServerOptions) (env : ClientEnv) (now : Int)
        (st : ExporterState) (e : String),
        fetchForCycle options env now st = .error e →
        servedMetricsBody (refreshMetrics options env now st) =
          errorComment e st.metricsCache.lastUpdate ++ servedMetricsBody st ∧
        servedHealthError (refreshMetrics options env now st) = some e) ∧
    (∀ (options : ServerOptions) (env : ClientEnv) (now : Int)
        (st : ExporterState),
        servedMetricsBody (refreshMetrics options env now st) ≠ "") ∧
    (∀ (options : ServerOptions) (env : ClientEnv) (now : Int)
        (st : ExporterState),
        servedMetricsBody (refreshMetrics options env now st) ≠
          placeholderText) ∧
    (∀ (options : ServerOptions) (env : ClientEnv) (now : Int)
        (st : ExporterState) (out : List NamespaceWithMetadata),
        fetchForCycle options env now st = .ok out →
        servedHealthError (refreshMetrics options env now st) = none) := by
  refine ⟨?_, ?_, ?_, ?_⟩
  · intro options env now st e h
    rw [refreshMetrics_error_eq options env now st e h]
    exact ⟨rfl, rfl⟩
  · intro options env now st
    cases hf : fetchForCycle options env now st with
    | error e =>
        rw [refreshMetrics_error_eq options env now st e hf]
        show errorComment e st.metricsCache.lastUpdate ++
          st.metricsCache.data ≠ ""
        rw [errorData_shape]
        exact errHead_ne_empty _
    | ok out =>
        rw [refreshMetrics_ok_eq options env now st out hf]
        show formatPrometheusMetrics (cycleMetrics options now st out) ≠ ""
        obtain ⟨z, hz⟩ := cycleText_shape options now st out
        rw [hz]
        exact helpHead_ne_empty z
  · intro options env now st
    cases hf : fetchForCycle options env now st with
    | error e =>
        rw [refreshMetrics_error_eq options env now st e hf]
        show errorComment e st.metricsCache.lastUpdate ++
          st.metricsCache.data ≠ placeholderText
        rw [errorData_shape]
        exact errHead_ne_placeholder _
    | ok out =>
        rw [refreshMetrics_ok_eq options env now st out hf]
        show formatPrometheusMetrics (cycleMetrics options now st out) ≠
          placeholderText
        obtain ⟨z, hz⟩ := cycleText_shape options now st out
        rw [hz]
        exact helpHead_ne_placeholder z
  · intro options env now st out h
    rw [refreshMetrics_ok_eq options env now st out h]
    rfl

/-- C1 witness: in the all-failing environment the first cycle serves the
placeholder prefixed with the error comment and reports the error on /health;
in the succeeding environment /health reports no error. -/
theorem failed_cycle_serves_stale_labeled_witness :
    servedMetricsBody (refreshMetrics optsSingle envListFail 10000000
        (initialState 0)) =
      errorComment "network down" 0 ++ servedMetricsBody (initialState 0) ∧
    servedHealthError (refreshMetrics optsSingle envListFail 10000000
        (initialState 0)) = some "network down" ∧
    servedHealthError (refreshMetrics optsSingle envOkEmpty 10000000
        (initialState 0)) = none :=
  ⟨(failed_cycle_serves_stale_labeled.1 optsSingle envListFail 10000000
      (initialState 0) "network down" rfl).1,
   (failed_cycle_serves_stale_labeled.1 optsSingle envListFail 10000000
      (initialState 0) "network down" rfl).2,
   failed_cycle_serves_stale_labeled.2.2.2 optsSingle envOkEmpty 10000000
     (initialState 0) [] rfl⟩

/-- C10: a cycle that ends in the error branch leaves the metrics cache's
lastUpdate (and the whole recall cache) exactly as before; only the rendered
text (which gains the prepended error comment) and the error field change. -/
theorem error_cycle_frame :
    ∀ (options : ServerOptions) (env : ClientEnv) (now : Int)
      (st : ExporterState) (e : String),
      fetchForCycle options env now st = .error e →
      (refreshMetrics options env now st).metricsCache.lastUpdate =
        st.metricsCache.lastUpdate ∧
      (refreshMetrics options env now st).metricsCache.data =
        errorComment e st.metricsCache.lastUpdate ++ st.metricsCache.data ∧
      (refreshMetrics options env now st).metricsCache.error = some e ∧
      (refreshMetrics options env now st).recallCache = st.recallCache := by
  intro options env now st e h
  rw [refreshMetrics_error_eq options env now st e h]
  exact ⟨rfl, rfl, rfl, rfl⟩

/-- C10 witness: the frame condition at a concrete failing cycle. -/
theorem error_cycle_frame_witness :
    (refreshMetrics optsSingle envListFail 10000000
        (initialState 0)).metricsCache.lastUpdate =
      (initialState 0).metricsCache.lastUpdate ∧
    (refreshMetrics optsSingle envListFail 10000000
        (initialState 0)).recallCache = (initialState 0).recallCache :=
  ⟨(error_cycle_frame optsSingle envListFail 10000000 (initialState 0)
      "network down" rfl).1,
   (error_cycle_frame optsSingle envListFail 10000000 (initialState 0)
      "network down" rfl).2.2.2⟩

/-- C2 counterexample: two namespaces sharing id "a" across two regions both
yield non-null recall in the same recall-refresh cycle, yet the recall cache
afterwards holds a single entry (for the later-visited region), not a
separate entry per (namespaceId, region) pair. -/
theorem recall_cache_single_entry_counterexample :
    shouldRefreshRecall optsAll 10000000
        (initialState 0).recallCache.lastUpdate = true ∧
    fetchNamespacesWithMetadata envTwoRegions
        { allRegions := true, region := none, includeRecall := true } =
      .ok
        [ { ns := ⟨"a"⟩, metadata := none, region := some "gcp-us-central1"
          , «recall» := some ⟨1, 10, 10⟩ }
        , { ns := ⟨"a"⟩, metadata := none, region := some "gcp-us-west1"
          , «recall» := some ⟨0, 10, 10⟩ } ] ∧
    (refreshMetrics optsAll envTwoRegions 10000000
        (initialState 0)).recallCache.data =
      [("a", { «recall» := ⟨0, 10, 10⟩, region := some "gcp-us-west1" })] ∧
    (refreshMetrics optsAll envTwoRegions 10000000
        (initialState 0)).recallCache.data.length ≠ 2 := by
  refine ⟨rfl, rfl, by decide, by decide⟩

/-- C2 (amended): the recall cache is keyed by namespaceId alone with the
region stored in the entry value: keys are unique, when two snapshots share
an id in one cycle the later one overwrites the earlier (last writer wins, so
only one entry per id is retained), and on later cycles a snapshot is merged
only with the entry stored under its id and only when that entry's region
equals the snapshot's region. -/
theorem recall_cache_keyed_by_id_last_writer_wins :
    (∀ nss, ((buildRecallCacheData nss).map Prod.fst).Nodup) ∧
    (∀ (id : String) (md1 md2 : Option NamespaceMetadata)
        (reg1 reg2 : Option String) (r1 r2 : RecallData),
        buildRecallCacheData
          [ { ns := ⟨id⟩, metadata := md1, region := reg1, «recall» := some r1 }
          , { ns := ⟨id⟩, metadata := md2, region := reg2, «recall» := some r2 } ] =
          [(id, { «recall» := r2, region := reg2 })]) ∧
    (∀ (cache : List (String × RecallCacheEntry)) (ns : NamespaceWithMetadata)
        (cached : RecallCacheEntry),
        mapGet cache ns.ns.id = some cached → cached.region ≠ ns.region →
        mergeCachedRecall cache ns = ns) ∧
    (∀ (cache : List (String × RecallCacheEntry)) (ns : NamespaceWithMetadata)
        (cached : RecallCacheEntry),
        mapGet cache ns.ns.id = some cached → cached.region = ns.region →
        mergeCachedRecall cache ns =
          { ns with «recall» := some cached.«recall» }) := by
  refine ⟨buildRecall_keys_nodup, ?_, ?_, ?_⟩
  · intro id md1 md2 reg1 reg2 r1 r2
    simp [buildRecallCacheData, mapSet]
  · intro cache ns cached h hne
    unfold mergeCachedRecall
    rw [h]
    simp [hne]
  · intro cache ns cached h he
    unfold mergeCachedRecall
    rw [h]
    simp [he]

/-- C2 witness: the keyed-by-id behavior at concrete inputs — a two-snapshot
cycle retains only the later entry, a cached entry with a non-matching region
is not merged, and one with the matching region is. -/
theorem recall_cache_keyed_by_id_last_writer_wins_witness :
    buildRecallCacheData
        [ { ns := ⟨"a"⟩, metadata := none, region := some "gcp-us-central1"
          , «recall» := some ⟨1, 10, 10⟩ }
        , { ns := ⟨"a"⟩, metadata := none, region := some "gcp-us-west1"
          , «recall» := some ⟨0, 10, 10⟩ } ] =
      [("a", { «recall» := ⟨0, 10, 10⟩, region := some "gcp-us-west1" })] ∧
    mergeCachedRecall [("a", cachedR1)] nsOtherRegion = nsOtherRegion ∧
    mergeCachedRecall [("a", cachedR1)] nsSameRegion =
      { nsSameRegion with «recall» := some cachedR1.«recall» } :=
  ⟨recall_cache_keyed_by_id_last_writer_wins.2.1 "a" none none
     (some "gcp-us-central1") (some "gcp-us-west1") ⟨1, 10, 10⟩ ⟨0, 10, 10⟩,
   recall_cache_keyed_by_id_last_writer_wins.2.2.1 [("a", cachedR1)]
     nsOtherRegion cachedR1 rfl (by decide),
   recall_cache_keyed_by_id_last_writer_wins.2.2.2 [("a", cachedR1)]
     nsSameRegion cachedR1 rfl rfl⟩

/-- C4 counterexample: a cycle on which a recall refresh is due but whose
fetch throws leaves the recall cache untouched — its lastUpdate is not set to
the current time, contradicting the claim that on every due cycle the cache
is replaced and its lastUpdate set to now. -/
theorem due_cycle_error_leaves_recall_cache :
    shouldRefreshRecall optsSingle 10000000
        (initialState 0).recallCache.lastUpdate = true ∧
    fetchForCycle optsSingle envListFail 10000000 (initialState 0) =
      .error "network down" ∧
    (refreshMetrics optsSingle envListFail 10000000
        (initialState 0)).recallCache.lastUpdate = 0 ∧
    (0 : Int) ≠ 10000000 := by
  refine ⟨rfl, rfl, rfl, by decide⟩

/-- C4 (amended): with includeRecall enabled, live recall is requested in a
cycle iff now - lastUpdate ≥ recallRefreshIntervalSeconds · 1000 (true on the
very first cycle — lastUpdate is initialized to the epoch — whenever the
current time is at least one recall interval past the epoch); on a cycle
where recall is not due, and likewise on any cycle that throws, the recall
cache is unchanged; on a due cycle whose fetch succeeds the cache is replaced
by entries built from the fetched snapshots with lastUpdate set to now; and a
fetch with the recall flag off never carries live recall data. -/
theorem recall_refresh_schedule :
    (∀ (options : ServerOptions) (now lu : Int),
        options.includeRecall = true →
        (shouldRefreshRecall options now lu = true ↔
          options.recallInterval * 1000 ≤ now - lu)) ∧
    initialRecallCache.lastUpdate = 0 ∧
    (∀ (options : ServerOptions) (now : Int), options.includeRecall = true →
        options.recallInterval * 1000 ≤ now →
        shouldRefreshRecall options now initialRecallCache.lastUpdate = true) ∧
    (∀ (options : ServerOptions) (env : ClientEnv) (now : Int)
        (st : ExporterState),
        shouldRefreshRecall options now st.recallCache.lastUpdate = false →
        (refreshMetrics options env now st).recallCache = st.recallCache) ∧
    (∀ (options : ServerOptions) (env : ClientEnv) (now : Int)
        (st : ExporterState) (e : String),
        fetchForCycle options env now st = .error e →
        (refreshMetrics options env now st).recallCache = st.recallCache) ∧
    (∀ (options : ServerOptions) (env : ClientEnv) (now : Int)
        (st : ExporterState) (out : List NamespaceWithMetadata),
        shouldRefreshRecall options now st.recallCache.lastUpdate = true →
        fetchForCycle options env now st = .ok out →
        (refreshMetrics options env now st).recallCache =
          { data := buildRecallCacheData out, lastUpdate := now }) ∧
    (∀ (env : ClientEnv) (region : Option String) (n : NamespaceRef),
        (fetchEntry env region false n).«recall» = none) := by
  refine ⟨?_, rfl, ?_, ?_, ?_, ?_, ?_⟩
  · intro options now lu h
    simp [shouldRefreshRecall, h]
  · intro options now h1 h2
    simp [shouldRefreshRecall, h1, initialRecallCache]
    omega
  · intro options env now st h
    cases hf : fetchForCycle options env now st with
    | error e => rw [refreshMetrics_error_eq options env now st e hf]
    | ok out =>
        rw [refreshMetrics_ok_eq options env now st out hf]
        simp [h]
  · intro options env now st e h
    rw [refreshMetrics_error_eq options env now st e h]
  · intro options env now st out hdue hfetch
    rw [refreshMetrics_ok_eq options env now st out hfetch]
    simp [hdue]
  · intro env region n
    rfl

/-- C4 witness: the schedule at concrete inputs — due on the first cycle,
unchanged on a not-yet-due cycle and on a failing due cycle, replaced with
lastUpdate = now on a successful due cycle. -/
theorem recall_refresh_schedule_witness :
    shouldRefreshRecall optsAll 10000000 0 = true ∧
    shouldRefreshRecall optsAll 7200000 initialRecallCache.lastUpdate = true ∧
    (refreshMetrics optsAll envOkEmpty 1000 (initialState 0)).recallCache =
      (initialState 0).recallCache ∧
    (refreshMetrics optsSingle envListFail 10000000
        (initialState 0)).recallCache = (initialState 0).recallCache ∧
    (refreshMetrics optsSingle envOkEmpty 10000000
        (initialState 0)).recallCache =
      { data := buildRecallCacheData [], lastUpdate := 10000000 } :=
  ⟨(recall_refresh_schedule.1 optsAll 10000000 0 rfl).mpr (by decide),
   recall_refresh_schedule.2.2.1 optsAll 7200000 rfl (by decide),
   recall_refresh_schedule.2.2.2.1 optsAll envOkEmpty 1000 (initialState 0)
     (by decide),
   recall_refresh_schedule.2.2.2.2.1 optsSingle envListFail 10000000
     (initialState 0) "network down" rfl,
   recall_refresh_schedule.2.2.2.2.2.1 optsSingle envOkEmpty 10000000
     (initialState 0) [] (by decide) rfl⟩

/-- C8: label escaping round-trips — the compliant Prometheus unescaper
recovers every original label value from its escapeLabel image (including
values containing backslash, double quote, or newline), and escapeLabel is
injective. -/
theorem escapeLabel_roundtrip :
    (∀ s : String, promUnescape (escapeLabel s).data = some s.data) ∧
    (∀ s t : String, escapeLabel s = escapeLabel t → s = t) :=
  ⟨promUnescape_escapeLabel, fun _ _ h => escapeLabel_inj h⟩

/-- C8 witness: the round trip on a value containing a double quote, a
backslash and a newline, and injectivity applied at a concrete pair. -/
theorem escapeLabel_roundtrip_witness :
    promUnescape (escapeLabel "a\"b\\c\nd").data = some ("a\"b\\c\nd").data ∧
    ("x" : String) = "x" :=
  ⟨escapeLabel_roundtrip.1 "a\"b\\c\nd",
   escapeLabel_roundtrip.2 "x" "x" rfl⟩
